import Mathlib

/-!
Shallow embedding of the security-metrics pipeline of this repository:
`analyze_security.py` (report extraction, severity normalization, CSV
projection) and `quality_gate.py` (summary loading, exception filter,
pass/fail gate).  Python strings are modelled as `String`, JSON optionality
as `Option`, `collections.Counter` as a list of increment events, and
Python machine behaviour (`str.upper`, `int(...)`, truthiness of `or` and
`if`) by explicit executable helpers over `List Char`.
-/

namespace JuiceShopMetrics

/-- ASCII uppercasing of one character, as Python `str.upper` acts on the
ASCII range (the only range the pipeline's data uses). -/
def pyCharUpper (c : Char) : Char :=
  if 'a' ≤ c ∧ c ≤ 'z' then Char.ofNat (c.toNat - 32) else c

/-- Python `s.upper()` on ASCII data. -/
def pyUpper (s : String) : String :=
  ⟨s.data.map pyCharUpper⟩

/-- ASCII lowercasing of one character, as Python `str.lower` acts on the
ASCII range. -/
def pyCharLower (c : Char) : Char :=
  if 'A' ≤ c ∧ c ≤ 'Z' then Char.ofNat (c.toNat + 32) else c

/-- Python `s.lower()` on ASCII data. -/
def pyLower (s : String) : String :=
  ⟨s.data.map pyCharLower⟩

/-- Whitespace characters stripped by Python `str.strip()` (ASCII set). -/
def isPySpace (c : Char) : Bool :=
  c == ' ' || c == '\t' || c == '\n' || c == '\r' || c.toNat == 11 || c.toNat == 12

/-- Strip leading and trailing whitespace from a character list. -/
def pyStripChars (l : List Char) : List Char :=
  ((l.dropWhile isPySpace).reverse.dropWhile isPySpace).reverse

/-- ASCII decimal digit test. -/
def isAsciiDigit (c : Char) : Bool :=
  48 ≤ c.toNat && c.toNat ≤ 57

/-- Python `int(s)`: optional surrounding whitespace, an optional sign, then a
nonempty run of decimal digits; anything else raises `ValueError`, modelled as
`none`.  (Underscore digit grouping, accepted by CPython, is not modelled;
none of the pipeline's data uses it.) -/
def pyInt (s : String) : Option Int :=
  let t := pyStripChars s.data
  let p : Int × List Char :=
    match t with
    | '-' :: rest => (-1, rest)
    | '+' :: rest => (1, rest)
    | rest => (1, rest)
  if !p.2.isEmpty && p.2.all isAsciiDigit then
    some (p.1 * (p.2.foldl (fun a c => a * 10 + (c.toNat - 48)) (0 : Nat) : Nat))
  else none

/-- Does `pre` start the list `l`? -/
def listStartsWith : List Char → List Char → Bool
  | [], _ => true
  | _ :: _, [] => false
  | a :: as, b :: bs => a == b && listStartsWith as bs

/-- Contiguous-sublist test on character lists. -/
def listContainsSub (needle : List Char) : List Char → Bool
  | [] => listStartsWith needle []
  | h :: t => listStartsWith needle (h :: t) || listContainsSub needle t

/-- Python `needle in haystack` substring containment. -/
def containsSub (needle haystack : String) : Bool :=
  listContainsSub needle.data haystack.data

/-- Lexicographic comparison of character lists by code point, the order
Python `sorted` uses on strings. -/
def listCharLe : List Char → List Char → Bool
  | [], _ => true
  | _ :: _, [] => false
  | a :: as, b :: bs => if a.toNat == b.toNat then listCharLe as bs else decide (a.toNat < b.toNat)

/-- Python `a <= b` on strings. -/
def pyStrLe (a b : String) : Bool :=
  listCharLe a.data b.data

/-- Insert into a sorted list of strings. -/
def insertSorted (x : String) : List String → List String
  | [] => [x]
  | y :: ys => if pyStrLe x y then x :: y :: ys else y :: insertSorted x ys

/-- Python `sorted` on a list of strings (stable order is irrelevant here
because inputs are deduplicated first). -/
def pySorted (l : List String) : List String :=
  l.foldr insertSorted []

/-- Python `a or b` on two optional strings: the first operand wins exactly
when it is present and non-empty (Python truthiness). -/
def pyOr (a b : Option String) : Option String :=
  match a with
  | some s => if s ≠ "" then some s else b
  | none => b

/-- Python truthiness filter on an optional list: present and non-empty. -/
def pyTruthyList (o : Option (List α)) : Option (List α) :=
  match o with
  | some l => if l.isEmpty then none else some l
  | none => none

/-- Rendering of an optional string inside a Python f-string: `None` renders
as the four characters `None`. -/
def pyStr (o : Option String) : String :=
  match o with
  | some s => s
  | none => "None"

/-- A `collections.Counter` modelled as the list of `(key, increment)` events
it received, in order; the count of a key is the sum of its increments and
the key set is every key ever touched (Python keeps keys even with zero
counts). -/
abbrev Counter := List (String × Int)

/-- One `counter[k] += v` event. -/
def counterAdd (c : Counter) (k : String) (v : Int) : Counter :=
  c ++ [(k, v)]

/-- `counter.get(k, 0)`. -/
def counterGet (c : Counter) (k : String) : Int :=
  ((c.filter (fun p => p.1 == k)).map (fun p => p.2)).sum

/-- The keys of the counter, first occurrence first. -/
def counterKeys (c : Counter) : List String :=
  (c.map (fun p => p.1)).eraseDups

/-- Sum of all counts in the counter. -/
def counterTotal (c : Counter) : Int :=
  (c.map (fun p => p.2)).sum

/-- One data row of the summary CSV `metrics.csv` as the gate reads it: the
`severity` and `count` column values (both raw strings). -/
structure SummaryRow where
  severity : String
  count : String
  deriving DecidableEq

/-- One data row of the detailed CSV `metrics_detailed.csv` as the gate reads
it: the `tool`, `severity` and `message` column values (the only columns
`quality_gate.py` consults). -/
structure DetailRow where
  tool : String
  severity : String
  message : String
  deriving DecidableEq

/-- `BLOCKING_SEVERITIES` from `quality_gate.py`. -/
def BLOCKING_SEVERITIES : List String :=
  ["CRITICAL", "HIGH"]

/-- `load_counts_from_csv` from `quality_gate.py`, given the parsed data rows
of an existing summary CSV: uppercase the `severity` column, parse the
`count` column with `int(...)` treating a `ValueError` as 0, and accumulate
into a `Counter`.  (The missing-file branch, which exits the process, is
modelled at `quality_gate_main`.) -/
def load_counts_from_csv (rows : List SummaryRow) : Counter :=
  rows.foldl (fun c row => counterAdd c (pyUpper row.severity) ((pyInt row.count).getD 0)) []

/-- `ALLOWED_ZAP_HIGH_MESSAGES` from `quality_gate.py`. -/
def ALLOWED_ZAP_HIGH_MESSAGES : List String :=
  ["Server Leaks Version Information via \"Server\" HTTP Response Header Field",
   "CSP: Failure to Define Directive with No Fallback",
   "GET for POST"]

/-- The per-row match test inside `subtract_allowed_exceptions`: tool is
`zap`, uppercased severity is `HIGH`, and the message contains one of the
allow-listed phrases as a case-sensitive substring. -/
def zapHighExceptionMatch (row : DetailRow) : Bool :=
  row.tool == "zap" && pyUpper row.severity == "HIGH"
    && ALLOWED_ZAP_HIGH_MESSAGES.any (fun allowed => containsSub allowed row.message)

/-- `subtract_allowed_exceptions` from `quality_gate.py`: a non-positive
count and a missing detailed CSV are returned unchanged; otherwise one is
subtracted per matching row and the result is clamped at zero.  `detailed`
is `none` when the detailed CSV file does not exist. -/
def subtract_allowed_exceptions (detailed : Option (List DetailRow)) (original_count : Int) : Int :=
  if original_count ≤ 0 then original_count
  else
    match detailed with
    | none => original_count
    | some rows =>
        max (rows.foldl (fun oc row => if zapHighExceptionMatch row then oc - 1 else oc) original_count) 0

/-- The blocking total of `main` in `quality_gate.py`: sum of the counts of
the blocking severities. -/
def blocking_total (counts : Counter) : Int :=
  BLOCKING_SEVERITIES.foldl (fun bt sev => bt + counterGet counts sev) 0

/-- `main` of `quality_gate.py` as its process exit status: `summary` is
`none` when the summary CSV file is missing (then `load_counts_from_csv`
exits with status 1); otherwise the blocking total is computed, the
exception filter applied, and the gate exits 1 on a positive adjusted total
and 0 otherwise. -/
def quality_gate_main (summary : Option (List SummaryRow)) (detailed : Option (List DetailRow)) : Nat :=
  match summary with
  | none => 1
  | some rows =>
      let counts := load_counts_from_csv rows
      let bt := blocking_total counts
      let bt2 := subtract_allowed_exceptions detailed bt
      if bt2 > 0 then 1 else 0

/-- One entry of the `components` list of a SonarCloud report; each field is
`none` when the JSON key is absent. -/
structure SonarComponent where
  key : Option String := none
  path : Option String := none
  name : Option String := none
  deriving DecidableEq

/-- One entry of the `issues` list of a SonarCloud report; each field is
`none` when the JSON key is absent.  `line` carries the JSON integer. -/
structure SonarIssue where
  status : Option String := none
  severity : Option String := none
  rule : Option String := none
  message : Option String := none
  component : Option String := none
  line : Option Int := none
  deriving DecidableEq

/-- A parsed `sonarcloud.json` report. -/
structure SonarReport where
  components : List SonarComponent := []
  issues : List SonarIssue := []
  deriving DecidableEq

/-- One normalized finding, the dict appended to `details` by the loaders in
`analyze_security.py`.  `target` is kept optional because the SonarCloud
loader can store Python `None` there (component with no path and no name). -/
structure Finding where
  tool : String
  severity : String
  rule_id : String
  message : String
  target : Option String
  location : String
  deriving DecidableEq

/-- The `comp_paths` dict built by `load_sonarcloud`: keys with Python-truthy
`key` map to `c.get("path") or c.get("name")`.  Later entries overwrite
earlier ones, so the list is built most-recent-first and read with
`List.lookup`. -/
def comp_paths (components : List SonarComponent) : List (String × Option String) :=
  components.foldl
    (fun m c =>
      match c.key with
      | some k => if k ≠ "" then (k, pyOr c.path c.name) :: m else m
      | none => m)
    []

/-- The filter applied to SonarCloud issues: `status in ("RESOLVED", "CLOSED")`
issues are skipped. -/
def sonarKeep (issue : SonarIssue) : Bool :=
  !(issue.status == some "RESOLVED" || issue.status == some "CLOSED")

/-- The body of the `load_sonarcloud` issue loop producing one finding:
severity defaults to `UNKNOWN`, the component key is resolved through
`comp_paths` with the raw key as fallback, and a Python-truthy (present and
nonzero) `line` selects the `"path:line"` target shape. -/
def sonarFinding (cps : List (String × Option String)) (issue : SonarIssue) : Finding :=
  let sev := issue.severity.getD "UNKNOWN"
  let path_ : Option String :=
    match issue.component with
    | some k => (List.lookup k cps).getD (some k)
    | none => none
  match issue.line with
  | some n =>
      if n = 0 then
        { tool := "sonarcloud", severity := sev, rule_id := issue.rule.getD "",
          message := issue.message.getD "", target := path_, location := "" }
      else
        { tool := "sonarcloud", severity := sev, rule_id := issue.rule.getD "",
          message := issue.message.getD "", target := some (pyStr path_ ++ ":" ++ toString n),
          location := toString n }
  | none =>
      { tool := "sonarcloud", severity := sev, rule_id := issue.rule.getD "",
        message := issue.message.getD "", target := path_, location := "" }

/-- `load_sonarcloud` from `analyze_security.py`: a missing report file
(`none`) yields empty counts and no findings; otherwise issues with status
`RESOLVED` or `CLOSED` are skipped and every other issue increments its
severity bucket and appends one finding. -/
def load_sonarcloud (report : Option SonarReport) : Counter × List Finding :=
  match report with
  | none => ([], [])
  | some r =>
      let cps := comp_paths r.components
      let kept := r.issues.filter sonarKeep
      (kept.foldl (fun c issue => counterAdd c (issue.severity.getD "UNKNOWN") 1) [],
       kept.map (sonarFinding cps))

/-- One entry of a ZAP alert's `instances` list. -/
structure ZapInstance where
  uri : Option String := none
  deriving DecidableEq

/-- One ZAP alert.  `risk` and `riskdesc` carry the textual risk descriptor
when it is a string (the only shape the reports use); `riskcode` carries the
`str(...)` rendering of the risk code. -/
structure ZapAlert where
  name : Option String := none
  pluginId : Option String := none
  risk : Option String := none
  riskdesc : Option String := none
  riskcode : Option String := none
  url : Option String := none
  instances : Option (List ZapInstance) := none
  deriving DecidableEq

/-- One site of a ZAP report. -/
structure ZapSite where
  alerts : Option (List ZapAlert) := none
  deriving DecidableEq

/-- A parsed `report_json.json` ZAP report, tolerating both the `site` and
the `sites` key. -/
structure ZapReport where
  site : Option (List ZapSite) := none
  sites : Option (List ZapSite) := none
  deriving DecidableEq

/-- The `code_map` dict of `load_zap`. -/
def ZAP_CODE_MAP : List (String × String) :=
  [("0", "INFO"), ("1", "LOW"), ("2", "MEDIUM"), ("3", "HIGH")]

/-- The substring cascade of `_zap_determine_severity` on a textual risk
descriptor: lowercase, then first match among high, medium, low, inform
wins; `none` when nothing matches. -/
def zapTextSeverity (s : String) : Option String :=
  let r := pyLower s
  if containsSub "high" r then some "HIGH"
  else if containsSub "medium" r then some "MEDIUM"
  else if containsSub "low" r then some "LOW"
  else if containsSub "inform" r then some "INFO"
  else none

/-- The riskcode fallback of `_zap_determine_severity`:
`code_map.get(str(riskcode), "UNKNOWN")` when `riskcode is not None`, else
`UNKNOWN`. -/
def zapCodeSeverity (riskcode : Option String) (code_map : List (String × String)) : String :=
  match riskcode with
  | some rc => (List.lookup rc code_map).getD "UNKNOWN"
  | none => "UNKNOWN"

/-- `_zap_determine_severity` from `analyze_security.py`:
`risk = alert.get("risk") or alert.get("riskdesc")`; a present string risk is
matched by the substring cascade, and on no match (or no string risk) the
riskcode fallback applies. -/
def zap_determine_severity (alert : ZapAlert) (code_map : List (String × String)) : String :=
  match pyOr alert.risk alert.riskdesc with
  | some s =>
      match zapTextSeverity s with
      | some sev => sev
      | none => zapCodeSeverity alert.riskcode code_map
  | none => zapCodeSeverity alert.riskcode code_map

/-- `_zap_get_alert_url` from `analyze_security.py`: the first instance's
`uri` when the `instances` list is Python-truthy, with the alert's own `url`
(defaulting to the empty string) as fallback. -/
def zap_get_alert_url (alert : ZapAlert) : String :=
  let url := alert.url.getD ""
  match pyTruthyList alert.instances with
  | some (inst :: _) => inst.uri.getD url
  | some [] => url
  | none => url

/-- The body of the `load_zap` alert loop producing one finding. -/
def zapFinding (alert : ZapAlert) : Finding :=
  { tool := "zap", severity := zap_determine_severity alert ZAP_CODE_MAP,
    rule_id := alert.pluginId.getD "", message := alert.name.getD "",
    target := some (zap_get_alert_url alert), location := "" }

/-- `load_zap` from `analyze_security.py`: a missing report file (`none`)
yields empty counts and no findings; otherwise
`data.get("site") or data.get("sites") or []` selects the site list and every
alert of every site increments its severity bucket and appends one finding. -/
def load_zap (report : Option ZapReport) : Counter × List Finding :=
  match report with
  | none => ([], [])
  | some r =>
      let sites :=
        match pyTruthyList r.site with
        | some l => l
        | none => (pyTruthyList r.sites).getD []
      let alerts := (sites.map (fun s => s.alerts.getD [])).flatten
      (alerts.foldl (fun c a => counterAdd c (zap_determine_severity a ZAP_CODE_MAP) 1) [],
       alerts.map zapFinding)

/-- `SEVERITY_ORDER` from `analyze_security.py`: the canonical severity
vocabulary of the pipeline. -/
def SEVERITY_ORDER : List String :=
  ["BLOCKER", "CRITICAL", "MAJOR", "HIGH", "MEDIUM", "LOW", "INFO", "UNKNOWN"]

/-- The data rows `write_csv` emits: the sorted union of the severities seen
by any tool, then one `(tool, severity, count)` row per tool and severity,
zero-filled via `counts.get(sev, 0)`. -/
def write_csv_rows (all_tools_counts : List (String × Counter)) : List (String × String × Int) :=
  let severities := pySorted ((all_tools_counts.map (fun p => counterKeys p.2)).flatten.eraseDups)
  all_tools_counts.foldl
    (fun rows p => rows ++ severities.map (fun sev => (p.1, sev, counterGet p.2 sev)))
    []

/-- Reading the summary CSV written by `write_csv` back as the gate's
`DictReader` sees it: the `severity` and `count` columns, the count rendered
in decimal. -/
def toSummaryRows (rows : List (String × String × Int)) : List SummaryRow :=
  rows.map (fun r => { severity := r.2.1, count := toString r.2.2 })

/-! Helper lemmas. -/

lemma load_counts_from_csv_eq_map (rows : List SummaryRow) :
    load_counts_from_csv rows
      = rows.map (fun r => (pyUpper r.severity, (pyInt r.count).getD 0)) := by
  have h : ∀ acc : Counter,
      rows.foldl (fun c row => counterAdd c (pyUpper row.severity) ((pyInt row.count).getD 0)) acc
        = acc ++ rows.map (fun r => (pyUpper r.severity, (pyInt r.count).getD 0)) := by
    induction rows with
    | nil => intro acc; simp
    | cons r rs ih =>
        intro acc
        rw [List.foldl_cons, ih]
        simp [counterAdd]
  simpa [load_counts_from_csv] using h []

lemma counterGet_cons (p : String × Int) (c : Counter) (k : String) :
    counterGet (p :: c) k = (if p.1 == k then p.2 else 0) + counterGet c k := by
  by_cases h : p.1 == k <;> simp [counterGet, List.filter_cons, h]

lemma counterGet_nonneg (c : Counter) (h : ∀ p ∈ c, 0 ≤ p.2) (k : String) :
    0 ≤ counterGet c k := by
  apply List.sum_nonneg
  intro x hx
  rcases List.mem_map.mp hx with ⟨p, hp, rfl⟩
  exact h p (List.mem_filter.mp hp).1

lemma blocking_total_eq (c : Counter) :
    blocking_total c = counterGet c "CRITICAL" + counterGet c "HIGH" := by
  simp [blocking_total, BLOCKING_SEVERITIES]

lemma foldl_if_sub (p : DetailRow → Bool) (rows : List DetailRow) (x : Int) :
    rows.foldl (fun oc row => if p row then oc - 1 else oc) x
      = x - ((rows.filter p).length : Int) := by
  induction rows generalizing x with
  | nil => simp
  | cons r rs ih =>
      by_cases hp : p r
      · simp [List.filter_cons, hp, ih]
        omega
      · simp [List.filter_cons, hp, ih]

lemma subtract_allowed_exceptions_nonneg (d : Option (List DetailRow)) (x : Int)
    (hx : 0 ≤ x) : 0 ≤ subtract_allowed_exceptions d x := by
  unfold subtract_allowed_exceptions
  split
  · exact hx
  · cases d with
    | none => exact hx
    | some rows => exact le_max_right _ 0

/-! Claim theorems. -/

/-- C10: the gate's summary loader uppercases each row's severity label
before counting (a row with severity `critical` counts toward `CRITICAL`)
and a count field that is not a valid integer contributes 0 instead of
raising, so a malformed count adds nothing to any bucket. -/
theorem gate_loader_uppercases_and_zeroes_bad_counts (rows : List SummaryRow) (sev : String) :
    counterGet (load_counts_from_csv rows) sev
      = ((rows.filter (fun r => pyUpper r.severity == sev)).map
          (fun r => (pyInt r.count).getD 0)).sum
    ∧ counterGet (load_counts_from_csv [⟨"critical", "3"⟩]) "CRITICAL" = 3
    ∧ pyInt "abc" = none
    ∧ counterGet (load_counts_from_csv [⟨"HIGH", "abc"⟩, ⟨"HIGH", "2"⟩]) "HIGH" = 2 := by
  refine ⟨?_, by decide, by decide, by decide⟩
  rw [load_counts_from_csv_eq_map]
  induction rows with
  | nil => simp [counterGet]
  | cons r rs ih =>
      by_cases h : pyUpper r.severity == sev <;>
        simp [counterGet_cons, List.filter_cons, h, ih]

/-- C1: with summary counts non-negative (as every severity-count summary's
counts are), the gate computes the blocking total as the `CRITICAL` plus
`HIGH` counts summed across all rows, applies the exception filter, exits 0
exactly when the adjusted blocking total is zero, and exits non-zero when
the summary CSV is missing. -/
theorem gate_pass_iff_adjusted_blocking_zero (rows : List SummaryRow)
    (d : Option (List DetailRow))
    (h : ∀ r ∈ rows, 0 ≤ (pyInt r.count).getD 0) :
    quality_gate_main none d ≠ 0
    ∧ blocking_total (load_counts_from_csv rows)
        = counterGet (load_counts_from_csv rows) "CRITICAL"
          + counterGet (load_counts_from_csv rows) "HIGH"
    ∧ (quality_gate_main (some rows) d = 0
        ↔ subtract_allowed_exceptions d (blocking_total (load_counts_from_csv rows)) = 0) := by
  refine ⟨by simp [quality_gate_main], blocking_total_eq _, ?_⟩
  have hnn : ∀ p ∈ load_counts_from_csv rows, (0 : Int) ≤ p.2 := by
    intro p hp
    rw [load_counts_from_csv_eq_map] at hp
    rcases List.mem_map.mp hp with ⟨r, hr, rfl⟩
    exact h r hr
  have hbt : 0 ≤ blocking_total (load_counts_from_csv rows) := by
    rw [blocking_total_eq]
    have h1 := counterGet_nonneg _ hnn "CRITICAL"
    have h2 := counterGet_nonneg _ hnn "HIGH"
    omega
  have hadj := subtract_allowed_exceptions_nonneg d _ hbt
  simp only [quality_gate_main]
  split
  · constructor
    · intro hc; omega
    · intro hc; omega
  · constructor
    · intro _; omega
    · intro _; rfl

/-- Witness for C1 at a concrete summary with one `CRITICAL` count of 1. -/
theorem gate_pass_iff_adjusted_blocking_zero_instance :
    quality_gate_main none none ≠ 0
    ∧ blocking_total (load_counts_from_csv [⟨"CRITICAL", "1"⟩])
        = counterGet (load_counts_from_csv [⟨"CRITICAL", "1"⟩]) "CRITICAL"
          + counterGet (load_counts_from_csv [⟨"CRITICAL", "1"⟩]) "HIGH"
    ∧ (quality_gate_main (some [⟨"CRITICAL", "1"⟩]) none = 0
        ↔ subtract_allowed_exceptions none
            (blocking_total (load_counts_from_csv [⟨"CRITICAL", "1"⟩])) = 0) :=
  gate_pass_iff_adjusted_blocking_zero [⟨"CRITICAL", "1"⟩] none (by decide)

/-- C2: on a positive blocking total and a detailed dataset whose `zap`
findings carry canonical uppercase severities (as every dataset the pipeline
writes does), the exception filter subtracts exactly one per row with tool
`zap`, severity `HIGH`, and a message containing an allow-listed phrase,
clamping at zero so the result is never negative. -/
theorem exception_filter_subtracts_matching_zap_high (rows : List DetailRow) (x : Int)
    (hx : 0 < x)
    (hcanon : ∀ r ∈ rows, r.tool = "zap" → pyUpper r.severity = r.severity) :
    subtract_allowed_exceptions (some rows) x
      = max (x - (((rows.filter (fun r =>
            r.tool == "zap" && r.severity == "HIGH"
              && ALLOWED_ZAP_HIGH_MESSAGES.any
                  (fun allowed => containsSub allowed r.message))).length : Int))) 0
    ∧ 0 ≤ subtract_allowed_exceptions (some rows) x := by
  have hfe : rows.filter zapHighExceptionMatch
      = rows.filter (fun r =>
          r.tool == "zap" && r.severity == "HIGH"
            && ALLOWED_ZAP_HIGH_MESSAGES.any
                (fun allowed => containsSub allowed r.message)) := by
    apply List.filter_congr
    intro r hr
    unfold zapHighExceptionMatch
    by_cases ht : r.tool = "zap"
    · rw [hcanon r hr ht]
    · have hb : (r.tool == "zap") = false := beq_eq_false_iff_ne.mpr ht
      simp [hb]
  have heq : subtract_allowed_exceptions (some rows) x
      = max (x - (((rows.filter zapHighExceptionMatch).length : Int))) 0 := by
    simp only [subtract_allowed_exceptions, if_neg (by omega : ¬ x ≤ 0)]
    rw [foldl_if_sub]
  rw [heq, hfe]
  exact ⟨rfl, le_max_right _ _⟩

/-- Witness for C2 at one matching `zap HIGH` row and blocking total 1. -/
theorem exception_filter_subtracts_matching_zap_high_instance :
    subtract_allowed_exceptions (some [⟨"zap", "HIGH", "GET for POST"⟩]) 1
      = max (1 - ((([(⟨"zap", "HIGH", "GET for POST"⟩ : DetailRow)].filter (fun r =>
            r.tool == "zap" && r.severity == "HIGH"
              && ALLOWED_ZAP_HIGH_MESSAGES.any
                  (fun allowed => containsSub allowed r.message))).length : Int))) 0
    ∧ 0 ≤ subtract_allowed_exceptions (some [⟨"zap", "HIGH", "GET for POST"⟩]) 1 :=
  exception_filter_subtracts_matching_zap_high [⟨"zap", "HIGH", "GET for POST"⟩] 1
    (by decide) (by decide)

/-- C7: the exception filter is the identity on the blocking total whenever
the detailed CSV is missing or no row of it matches the allow-list predicate
(tool `zap`, severity `HIGH`, allow-listed message substring). -/
theorem exception_filter_noop_on_missing_or_nonmatching (x : Int) (rows : List DetailRow)
    (h : ∀ r ∈ rows, zapHighExceptionMatch r = false) :
    subtract_allowed_exceptions none x = x
    ∧ subtract_allowed_exceptions (some rows) x = x := by
  constructor
  · unfold subtract_allowed_exceptions
    split
    · rfl
    · rfl
  · by_cases hx : x ≤ 0
    · simp [subtract_allowed_exceptions, hx]
    · have hfilter : rows.filter zapHighExceptionMatch = [] :=
        List.filter_eq_nil_iff.mpr (fun a ha => by simp [h a ha])
      simp only [subtract_allowed_exceptions, if_neg hx]
      rw [foldl_if_sub, hfilter]
      simp
      omega

/-- Witness for C7 at a non-matching detailed row and blocking total 5. -/
theorem exception_filter_noop_on_missing_or_nonmatching_instance :
    subtract_allowed_exceptions none 5 = 5
    ∧ subtract_allowed_exceptions
        (some [⟨"sonarcloud", "CRITICAL", "GET for POST"⟩]) 5 = 5 :=
  exception_filter_noop_on_missing_or_nonmatching 5
    [⟨"sonarcloud", "CRITICAL", "GET for POST"⟩] (by decide)

lemma counter_fold_ones_total (f : α → String) (l : List α) :
    ∀ acc : Counter,
      counterTotal (l.foldl (fun c x => counterAdd c (f x) 1) acc)
        = counterTotal acc + (l.length : Int) := by
  induction l with
  | nil => intro acc; simp
  | cons x xs ih =>
      intro acc
      rw [List.foldl_cons, ih]
      simp [counterAdd, counterTotal]
      omega

lemma sonarFinding_severity (cps : List (String × Option String)) (j : SonarIssue) :
    (sonarFinding cps j).severity = j.severity.getD "UNKNOWN" := by
  unfold sonarFinding
  cases hl : j.line with
  | none => simp [hl]
  | some n =>
      by_cases h : n = 0
      · simp [hl, h]
      · simp [hl, h]

/-- C3: a SonarCloud issue with status `RESOLVED` or `CLOSED` produces no
finding and increments no severity count (inserting it anywhere leaves the
loader's output unchanged), and a report whose issues all have other
statuses produces exactly one finding and one count increment per issue. -/
theorem sonar_excludes_resolved_closed (comps : List SonarComponent)
    (pre post : List SonarIssue) (i : SonarIssue)
    (hi : i.status = some "RESOLVED" ∨ i.status = some "CLOSED")
    (issues : List SonarIssue)
    (hall : ∀ j ∈ issues, j.status ≠ some "RESOLVED" ∧ j.status ≠ some "CLOSED") :
    load_sonarcloud (some ⟨comps, pre ++ i :: post⟩)
      = load_sonarcloud (some ⟨comps, pre ++ post⟩)
    ∧ (load_sonarcloud (some ⟨comps, issues⟩)).2.length = issues.length
    ∧ counterTotal (load_sonarcloud (some ⟨comps, issues⟩)).1 = (issues.length : Int) := by
  have hkeep : sonarKeep i = false := by
    rcases hi with h | h <;> simp [sonarKeep, h]
  have hkeepall : issues.filter sonarKeep = issues := by
    apply List.filter_eq_self.mpr
    intro j hj
    have h1 := beq_eq_false_iff_ne.mpr (hall j hj).1
    have h2 := beq_eq_false_iff_ne.mpr (hall j hj).2
    simp [sonarKeep, h1, h2]
  refine ⟨?_, ?_, ?_⟩
  · simp [load_sonarcloud, List.filter_append, List.filter_cons, hkeep]
  · simp [load_sonarcloud, hkeepall]
  · simp only [load_sonarcloud, hkeepall]
    simpa [counterTotal] using
      counter_fold_ones_total (fun issue => issue.severity.getD "UNKNOWN") issues []

/-- Witness for C3: a `RESOLVED` issue is dropped; an `OPEN` issue yields
exactly one finding and one count. -/
theorem sonar_excludes_resolved_closed_instance :
    load_sonarcloud (some ⟨[], [{ status := some "RESOLVED" }]⟩)
      = load_sonarcloud (some ⟨[], []⟩)
    ∧ (load_sonarcloud (some ⟨[], [{ status := some "OPEN" }]⟩)).2.length
        = [({ status := some "OPEN" } : SonarIssue)].length
    ∧ counterTotal (load_sonarcloud (some ⟨[], [{ status := some "OPEN" }]⟩)).1
        = (([({ status := some "OPEN" } : SonarIssue)].length : Int)) :=
  sonar_excludes_resolved_closed [] [] [] { status := some "RESOLVED" } (Or.inl rfl)
    [{ status := some "OPEN" }] (by decide)

/-- Counterexample to C4: an issue whose raw severity is the unmapped label
`WEIRD` yields a finding whose severity is `WEIRD` itself — a raw unmapped
severity string that is not a canonical label and is not `UNKNOWN` — rather
than being normalized to `UNKNOWN` as the claim states. -/
theorem sonar_unmapped_severity_appears :
    ((load_sonarcloud
        (some ⟨[], [{ severity := some "WEIRD", status := some "OPEN" }]⟩)).2.map
          (fun f => f.severity)) = ["WEIRD"]
    ∧ "WEIRD" ∉ SEVERITY_ORDER
    ∧ ("WEIRD" : String) ≠ "UNKNOWN" := by
  decide

/-- C4 as amended: the finding's severity is the issue's raw severity label
passed through unchanged whenever the field is present — whether or not it
matches a known canonical label — and `UNKNOWN` exactly when the field is
absent. -/
theorem sonar_severity_raw_passthrough (comps : List SonarComponent)
    (issues : List SonarIssue) :
    ((load_sonarcloud (some ⟨comps, issues⟩)).2.map (fun f => f.severity))
      = (issues.filter sonarKeep).map (fun j => j.severity.getD "UNKNOWN") := by
  simp [load_sonarcloud, List.map_map, Function.comp, sonarFinding_severity]

/-- Counterexample to C5: an alert whose textual risk descriptor is present
but matches no recognized substring (`Severe`) still has its severity
determined by the numeric risk code — the claim's "only when no textual risk
descriptor is present" fails. -/
theorem zap_riskcode_overrides_unrecognized_text :
    zap_determine_severity { risk := some "Severe", riskcode := some "2" } ZAP_CODE_MAP
      = "MEDIUM"
    ∧ ({ risk := some "Severe", riskcode := some "2" } : ZapAlert).risk ≠ none
    ∧ ("MEDIUM" : String) ≠ "UNKNOWN"
    ∧ zap_determine_severity { risk := some "Severe", riskcode := some "3" } ZAP_CODE_MAP
        = "HIGH" := by
  decide

/-- C5 as amended: the numeric risk code determines the severity exactly when
no textual risk descriptor is present or the descriptor matches none of the
recognized substrings; a recognized descriptor makes the riskcode irrelevant;
with no risk text, riskcode `2` normalizes to `MEDIUM`, and an absent or
unrecognized riskcode yields `UNKNOWN` (the function is total, never
throwing). -/
theorem zap_riskcode_fallback (a : ZapAlert) :
    (pyOr a.risk a.riskdesc = none →
      zap_determine_severity a ZAP_CODE_MAP = zapCodeSeverity a.riskcode ZAP_CODE_MAP)
    ∧ (∀ s, pyOr a.risk a.riskdesc = some s → zapTextSeverity s = none →
        zap_determine_severity a ZAP_CODE_MAP = zapCodeSeverity a.riskcode ZAP_CODE_MAP)
    ∧ (∀ s sev, pyOr a.risk a.riskdesc = some s → zapTextSeverity s = some sev →
        zap_determine_severity a ZAP_CODE_MAP = sev)
    ∧ (pyOr a.risk a.riskdesc = none → a.riskcode = some "2" →
        zap_determine_severity a ZAP_CODE_MAP = "MEDIUM")
    ∧ (pyOr a.risk a.riskdesc = none → a.riskcode = none →
        zap_determine_severity a ZAP_CODE_MAP = "UNKNOWN")
    ∧ (∀ rc, pyOr a.risk a.riskdesc = none → a.riskcode = some rc →
        List.lookup rc ZAP_CODE_MAP = none →
        zap_determine_severity a ZAP_CODE_MAP = "UNKNOWN") := by
  refine ⟨?_, ?_, ?_, ?_, ?_, ?_⟩
  · intro h
    simp [zap_determine_severity, h]
  · intro s hs hts
    simp [zap_determine_severity, hs, hts]
  · intro s sev hs hts
    simp [zap_determine_severity, hs, hts]
  · intro h h2
    simp [zap_determine_severity, h, zapCodeSeverity, h2, ZAP_CODE_MAP]
    decide
  · intro h h2
    simp [zap_determine_severity, h, zapCodeSeverity, h2]
  · intro rc h h2 h3
    simp [zap_determine_severity, h, zapCodeSeverity, h2, h3]

/-- Witness for C5 (amended) at concrete alerts: riskcode `2` with no risk
text gives `MEDIUM`; no risk text and no riskcode gives `UNKNOWN`. -/
theorem zap_riskcode_fallback_instance :
    zap_determine_severity { riskcode := some "2" } ZAP_CODE_MAP = "MEDIUM"
    ∧ zap_determine_severity {} ZAP_CODE_MAP = "UNKNOWN" :=
  ⟨(zap_riskcode_fallback { riskcode := some "2" }).2.2.2.1 rfl rfl,
   (zap_riskcode_fallback {}).2.2.2.2.1 rfl rfl⟩

/-- C6: for an alert whose risk descriptor is a string, severity is chosen by
case-insensitive substring matching in the priority order high, medium, low,
inform, first match winning, and the textual descriptor beats the numeric
risk code: risk text `High (confirmed)` with riskcode `1` normalizes to
`HIGH`. -/
theorem zap_text_priority (a : ZapAlert) (s : String)
    (hs : pyOr a.risk a.riskdesc = some s) :
    (containsSub "high" (pyLower s) = true →
      zap_determine_severity a ZAP_CODE_MAP = "HIGH")
    ∧ (containsSub "high" (pyLower s) = false → containsSub "medium" (pyLower s) = true →
        zap_determine_severity a ZAP_CODE_MAP = "MEDIUM")
    ∧ (containsSub "high" (pyLower s) = false → containsSub "medium" (pyLower s) = false →
        containsSub "low" (pyLower s) = true →
        zap_determine_severity a ZAP_CODE_MAP = "LOW")
    ∧ (containsSub "high" (pyLower s) = false → containsSub "medium" (pyLower s) = false →
        containsSub "low" (pyLower s) = false → containsSub "inform" (pyLower s) = true →
        zap_determine_severity a ZAP_CODE_MAP = "INFO")
    ∧ zap_determine_severity
        { risk := some "High (confirmed)", riskcode := some "1" } ZAP_CODE_MAP = "HIGH" := by
  refine ⟨?_, ?_, ?_, ?_, by decide⟩
  all_goals intros
  all_goals simp [zap_determine_severity, zapTextSeverity, hs, *]

/-- Witness for C6 at an alert whose risk text contains `medium` but not
`high`. -/
theorem zap_text_priority_instance :
    zap_determine_severity { risk := some "Medium risk" } ZAP_CODE_MAP = "MEDIUM" :=
  (zap_text_priority { risk := some "Medium risk" } "Medium risk" (by decide)).2.1
    (by decide) (by decide)

/-- Counterexample to C9: an issue whose `line` field is present with value 0
gets the bare path as target and an empty location (Python truthiness treats
`line = 0` as absent), not the `path:0` / `"0"` the claim requires for every
present line. -/
theorem sonar_line_zero_ignored :
    ((load_sonarcloud (some ⟨[],
        [{ component := some "src/app.js", line := some 0, status := some "OPEN" }]⟩)).2.map
          (fun f => (f.target, f.location)))
      = [(some "src/app.js", "")]
    ∧ ((some "src/app.js" : Option String), ("" : String)) ≠ (some "src/app.js:0", "0") := by
  decide

/-- Target and location exactly as the amended C9 states them: the component
key is looked up in the components map, falling back to the raw key when
absent; a present *and nonzero* line gives target `path:line` and location
`str(line)`, and an absent or zero line gives the bare path and an empty
location. -/
def claimed_target_location (cps : List (String × Option String)) (issue : SonarIssue) :
    Option String × String :=
  let path_ : Option String :=
    match issue.component with
    | some k => (List.lookup k cps).getD (some k)
    | none => none
  match issue.line with
  | some n =>
      if n ≠ 0 then (some (pyStr path_ ++ ":" ++ toString n), toString n) else (path_, "")
  | none => (path_, "")

lemma sonarFinding_target_location (cps : List (String × Option String)) (j : SonarIssue) :
    ((sonarFinding cps j).target, (sonarFinding cps j).location)
      = claimed_target_location cps j := by
  unfold sonarFinding claimed_target_location
  cases hl : j.line with
  | none => simp [hl]
  | some n =>
      by_cases h : n = 0
      · simp [hl, h]
      · simp [hl, h]

/-- C9 as amended: every extracted finding's target is resolved by component
lookup with raw-key fallback, and a present nonzero line gives the
`path:line` target and stringified location, while an absent or zero line
gives the bare path and empty location. -/
theorem sonar_target_location_resolution (comps : List SonarComponent)
    (issues : List SonarIssue) :
    ((load_sonarcloud (some ⟨comps, issues⟩)).2.map (fun f => (f.target, f.location)))
      = (issues.filter sonarKeep).map (claimed_target_location (comp_paths comps)) := by
  simp [load_sonarcloud, List.map_map, Function.comp, sonarFinding_target_location]

/-- C8: a missing report file makes either loader return empty counts and an
empty finding list (no failure), and with both reports absent the summary
CSV has no data rows, the blocking total is 0, and the gate exits 0
(PASS) whatever the detailed CSV holds. -/
theorem missing_reports_gate_passes (d : Option (List DetailRow)) :
    load_sonarcloud none = ([], [])
    ∧ load_zap none = ([], [])
    ∧ write_csv_rows
        [("sonarcloud", (load_sonarcloud none).1), ("zap", (load_zap none).1)] = []
    ∧ blocking_total (load_counts_from_csv (toSummaryRows (write_csv_rows
        [("sonarcloud", (load_sonarcloud none).1), ("zap", (load_zap none).1)]))) = 0
    ∧ quality_gate_main (some (toSummaryRows (write_csv_rows
        [("sonarcloud", (load_sonarcloud none).1), ("zap", (load_zap none).1)]))) d = 0 :=
  ⟨rfl, rfl, rfl, rfl, rfl⟩

end JuiceShopMetrics
